import Mathlib

/-!
Shallow embedding of the statistics toolkit (Estimation.py,
HypothesisTesting.py, HypothesisError.py).

Modelling conventions:
* Python floats are modelled as real numbers (`ℝ`); sample sizes as `ℕ`.
* `scipy.stats.norm.cdf` / `scipy.stats.norm.ppf` and the Student-t
  counterparts are modelled by an abstract structure (`NormalModel`,
  `TModel`) packaging the cumulative distribution function and the
  quantile function together with the analytic facts the code relies on
  (monotonicity, range `[0,1]`, point symmetry `F(-x) = 1 - F(x)`, and
  `F (ppf q) = q` on `(0,1)`).  Every theorem below holds for any
  instantiation satisfying this interface, in particular for the true
  Normal and Student-t distributions.
* `scipy.stats.norm.cdf x loc scale` is the location-scale transform
  `cdf ((x - loc) / scale)`; `norm_cdf_loc_scale` models exactly that.
* A Python `raise ValueError(...)` is modelled as `Except.error`.  The
  repository distinguishes two kinds of `ValueError`: the explicit
  validation failures of the 10-successes/10-failures rule
  (`StatError.validationError`, carrying the message built by the
  validation helper) and the invalid-tail-type rejection inside
  `calculate_p_value` (`StatError.invalidArgument`).  A crash caused by
  reading a variable that no branch assigned (Python `UnboundLocalError`,
  reached in `calculate_errors_power` for an unrecognized `tails`) is
  `StatError.unboundLocalError`.
* In `calculate_errors_power` the values `±np.inf` assigned to the unused
  critical bound in the one-sided branches are never read afterwards
  (each `beta` formula only consumes the finite bound), so the model
  simply does not materialize them.  Likewise `np.sqrt` of a negative or
  zero argument produces NaN/inf *without raising*, and the function then
  returns normally; the model mirrors that control flow by returning
  `Except.ok` (the garbage component values are never asserted).
-/

noncomputable section

open scoped Classical

/-- Outcome of `"Reject H₀" if p_value < alpha else "Fail to Reject H₀"`. -/
inductive Decision where
  | reject
  | failToReject
deriving DecidableEq, Repr

/-- The error kinds raised by the Python code (see module comment). -/
inductive StatError where
  | validationError (msg : String)
  | invalidArgument (msg : String)
  | unboundLocalError
deriving DecidableEq, Repr

/-- `true` exactly on the validation-rule `ValueError`s. -/
def StatError.isValidationKind : StatError → Bool
  | .validationError _ => true
  | _ => false

/-- `true` when the computation raised (any `Except.error`). -/
def exceptFails {α : Type} : Except StatError α → Bool
  | .error _ => true
  | .ok _ => false

/-- `true` when the computation raised a validation-rule error. -/
def failsWithValidation {α : Type} : Except StatError α → Bool
  | .error e => e.isValidationKind
  | .ok _ => false

/-- Abstract interface for `scipy.stats.norm`: the standard Normal CDF
`cdf` and quantile function `ppf`, with the analytic facts the code
relies on.  The genuine standard Normal distribution satisfies all of
them. -/
structure NormalModel where
  cdf : ℝ → ℝ
  ppf : ℝ → ℝ
  cdf_mono : Monotone cdf
  cdf_nonneg : ∀ x, 0 ≤ cdf x
  cdf_le_one : ∀ x, cdf x ≤ 1
  cdf_neg : ∀ x, cdf (-x) = 1 - cdf x
  cdf_ppf : ∀ q, 0 < q → q < 1 → cdf (ppf q) = q
  ppf_mono : ∀ q r, 0 < q → q ≤ r → r < 1 → ppf q ≤ ppf r

/-- Abstract interface for `scipy.stats.t`: for each degrees-of-freedom
value, the CDF and quantile function with the same analytic facts (the
Student-t distribution is symmetric about 0, so its CDF satisfies the
same point symmetry). -/
structure TModel where
  cdf : ℕ → ℝ → ℝ
  ppf : ℕ → ℝ → ℝ
  cdf_mono : ∀ df, Monotone (cdf df)
  cdf_nonneg : ∀ df x, 0 ≤ cdf df x
  cdf_le_one : ∀ df x, cdf df x ≤ 1
  cdf_neg : ∀ df x, cdf df (-x) = 1 - cdf df x
  cdf_ppf : ∀ df q, 0 < q → q < 1 → cdf df (ppf df q) = q
  ppf_mono : ∀ df q r, 0 < q → q ≤ r → r < 1 → ppf df q ≤ ppf df r

/-- `scipy.stats.norm.cdf x loc scale` (equivalently
`stats.norm(loc, scale).cdf x`): the location-scale transform of the
standard Normal CDF. -/
def norm_cdf_loc_scale (M : NormalModel) (x loc scale : ℝ) : ℝ :=
  M.cdf ((x - loc) / scale)

namespace Estimation

/-- `Estimation.validate_estimation_inputs` (Estimation.py lines 5-17). -/
def validate_estimation_inputs (p : ℝ) (n : ℕ) : Bool × String :=
  if (n : ℝ) * p < 10 ∨ (n : ℝ) * (1 - p) < 10 then
    (false, "For proportion estimation, success and fail must both be at least 10.")
  else
    (true, "Inputs are valid.")

/-- `Estimation.z_distribution` (Estimation.py lines 20-47).
Returns (margin of error, confidence interval, optional probability). -/
def z_distribution (M : NormalModel) (mean SE cl : ℝ)
    (range_start range_end : Option ℝ) : ℝ × (ℝ × ℝ) × Option ℝ :=
  let alpha := (1 - cl) / 2
  let z_critical := M.ppf (1 - alpha)
  let MoE := z_critical * SE
  let CI := (mean - MoE, mean + MoE)
  let probability : Option ℝ :=
    match range_start, range_end with
    | some s, some e =>
        some (norm_cdf_loc_scale M e mean SE - norm_cdf_loc_scale M s mean SE)
    | _, _ => none
  (MoE, CI, probability)

/-- `Estimation.t_distribution` (Estimation.py lines 50-77). -/
def t_distribution (T : TModel) (mean SE cl : ℝ) (n : ℕ)
    (start stop : Option ℝ) : ℝ × (ℝ × ℝ) × Option ℝ :=
  let df := n - 1
  let alpha := (1 - cl) / 2
  let t_critical := T.ppf df (1 - alpha)
  let MoE := t_critical * SE
  let CI := (mean - MoE, mean + MoE)
  let probability : Option ℝ :=
    match start, stop with
    | some s, some e =>
        some (T.cdf df ((e - mean) / SE) - T.cdf df ((s - mean) / SE))
    | _, _ => none
  (MoE, CI, probability)

/-- The branch condition `n < 30 or is_sample_std` of
`calculate_mean_estimation` (Estimation.py line 97): `true` selects the
Student-t path. -/
def mean_estimation_uses_t (n : ℕ) (is_sample_std : Bool) : Bool :=
  decide (n < 30) || is_sample_std

/-- `Estimation.calculate_mean_estimation` (Estimation.py lines 80-100). -/
def calculate_mean_estimation (M : NormalModel) (T : TModel)
    (mean : ℝ) (n : ℕ) (std : ℝ) (is_sample_std : Bool) (cl : ℝ)
    (start stop : Option ℝ) : ℝ × (ℝ × ℝ) × Option ℝ :=
  let SE := std / Real.sqrt (n : ℝ)
  if mean_estimation_uses_t n is_sample_std then
    t_distribution T mean SE cl n start stop
  else
    z_distribution M mean SE cl start stop

/-- `Estimation.calculate_proportion_estimation`
(Estimation.py lines 103-123). -/
def calculate_proportion_estimation (M : NormalModel) (p : ℝ) (n : ℕ)
    (cl : ℝ) (start stop : Option ℝ) :
    Except StatError (ℝ × (ℝ × ℝ) × Option ℝ) :=
  let v := validate_estimation_inputs p n
  if v.1 = false then
    .error (.validationError v.2)
  else
    let SE := Real.sqrt ((p * (1 - p)) / (n : ℝ))
    .ok (z_distribution M p SE cl start stop)

end Estimation

namespace HypothesisTesting

/-- `HypothesisTesting.validate_proportion_inputs`
(HypothesisTesting.py lines 5-14). -/
def validate_proportion_inputs (p : ℝ) (n : ℕ) : Bool × String :=
  if (n : ℝ) * p < 10 ∨ (n : ℝ) * (1 - p) < 10 then
    (false, "For proportion estimation, succeeded = np and failed = n(1-p) must both be at least 10.")
  else
    (true, "Inputs are valid.")

/-- `calculate_standard_error_mean` (HypothesisTesting.py lines 17-24). -/
def calculate_standard_error_mean (std_dev : ℝ) (n : ℕ) : ℝ :=
  std_dev / Real.sqrt (n : ℝ)

/-- `calculate_standard_error_proportion`
(HypothesisTesting.py lines 27-34). -/
def calculate_standard_error_proportion (p : ℝ) (n : ℕ) : ℝ :=
  Real.sqrt ((p * (1 - p)) / (n : ℝ))

/-- `calculate_z_score` (HypothesisTesting.py lines 37-45). -/
def calculate_z_score (sample_stat population_mean se : ℝ) : ℝ :=
  (sample_stat - population_mean) / se

/-- `calculate_t_score` (HypothesisTesting.py lines 48-56). -/
def calculate_t_score (sample_mean population_mean se : ℝ) : ℝ :=
  (sample_mean - population_mean) / se

/-- `calculate_p_value` (HypothesisTesting.py lines 59-83).
`df = none` selects the Normal distribution, `df = some d` Student-t. -/
def calculate_p_value (M : NormalModel) (T : TModel) (z_score : ℝ)
    (tail_type : String) (df : Option ℕ) : Except StatError ℝ :=
  if tail_type = "two" then
    match df with
    | none => .ok (2 * (1 - M.cdf |z_score|))
    | some d => .ok (2 * (1 - T.cdf d |z_score|))
  else if tail_type = "left" then
    match df with
    | none => .ok (M.cdf z_score)
    | some d => .ok (T.cdf d z_score)
  else if tail_type = "right" then
    match df with
    | none => .ok (1 - M.cdf z_score)
    | some d => .ok (1 - T.cdf d z_score)
  else
    .error (.invalidArgument "Invalid tail type. Choose two, left, or right.")

/-- The branch condition `n >= 30 or is_population_std` of
`hypothesis_test_mean` (HypothesisTesting.py line 100): `true` selects
the Normal (Z-test) path. -/
def hypothesis_mean_uses_z (n : ℕ) (is_population_std : Bool) : Bool :=
  decide (30 ≤ n) || is_population_std

/-- `hypothesis_test_mean` (HypothesisTesting.py lines 86-111).
Returns (test statistic, p-value, decision). -/
def hypothesis_test_mean (M : NormalModel) (T : TModel)
    (sample_mean population_mean std_dev : ℝ) (n : ℕ) (alpha : ℝ)
    (tail_type : String) (is_population_std : Bool) :
    Except StatError (ℝ × ℝ × Decision) :=
  let se := calculate_standard_error_mean std_dev n
  let statAndP : Except StatError (ℝ × ℝ) :=
    if hypothesis_mean_uses_z n is_population_std then
      match calculate_p_value M T (calculate_z_score sample_mean population_mean se) tail_type none with
      | .error e => .error e
      | .ok p => .ok (calculate_z_score sample_mean population_mean se, p)
    else
      match calculate_p_value M T (calculate_t_score sample_mean population_mean se) tail_type (some (n - 1)) with
      | .error e => .error e
      | .ok p => .ok (calculate_t_score sample_mean population_mean se, p)
  match statAndP with
  | .error e => .error e
  | .ok (stat, p) =>
      .ok (stat, p, if p < alpha then Decision.reject else Decision.failToReject)

/-- `hypothesis_test_proportion` (HypothesisTesting.py lines 114-133).
The validation and the standard error both use the hypothesized
(population) proportion. -/
def hypothesis_test_proportion (M : NormalModel) (T : TModel)
    (sample_proportion population_proportion : ℝ) (n : ℕ) (alpha : ℝ)
    (tail_type : String) : Except StatError (ℝ × ℝ × Decision) :=
  let v := validate_proportion_inputs population_proportion n
  if v.1 = false then
    .error (.validationError v.2)
  else
    let se := calculate_standard_error_proportion population_proportion n
    let z_score := calculate_z_score sample_proportion population_proportion se
    match calculate_p_value M T z_score tail_type none with
    | .error e => .error e
    | .ok p =>
        .ok (z_score, p, if p < alpha then Decision.reject else Decision.failToReject)

end HypothesisTesting

namespace HypothesisError

/-- `calculate_errors_power` (HypothesisError.py lines 82-124).
Returns (Type I error, Type II error beta, power).  For an unrecognized
`tails` no branch assigns the critical values or `beta`, and the final
`power = 1 - beta` raises `UnboundLocalError` in Python; the `±np.inf`
bounds of the one-sided branches are never read by the corresponding
`beta` formula and are therefore not materialized (see module comment). -/
def calculate_errors_power (M : NormalModel) (mean_null mean_alt std : ℝ)
    (n : ℕ) (alpha : ℝ) (tails : String) : Except StatError (ℝ × ℝ × ℝ) :=
  let SE := std / Real.sqrt (n : ℝ)
  if tails = "two" then
    let z_critical := M.ppf (1 - alpha / 2)
    let critical_value_low := mean_null - z_critical * SE
    let critical_value_high := mean_null + z_critical * SE
    let type1_error := alpha
    let beta := norm_cdf_loc_scale M critical_value_high mean_alt SE -
      norm_cdf_loc_scale M critical_value_low mean_alt SE
    .ok (type1_error, beta, 1 - beta)
  else if tails = "right" then
    let z_critical := M.ppf (1 - alpha)
    let critical_value_high := mean_null + z_critical * SE
    let type1_error := alpha
    let beta := norm_cdf_loc_scale M critical_value_high mean_alt SE
    .ok (type1_error, beta, 1 - beta)
  else if tails = "left" then
    let z_critical := M.ppf alpha
    let critical_value_low := mean_null + z_critical * SE
    let type1_error := alpha
    let beta := 1 - norm_cdf_loc_scale M critical_value_low mean_alt SE
    .ok (type1_error, beta, 1 - beta)
  else
    .error .unboundLocalError

end HypothesisError

/-- Modelled from the spec: the reference-distribution rule the spec
states for both mean estimation and the mean hypothesis test — "Normal
when n ≥ 30 and the population standard deviation is known, Student-t
otherwise".  Used only to compare the two code paths against the spec
(refinement); `true` means the Normal distribution is selected. -/
def spec_normal_selection (n : ℕ) (pop_std_known : Bool) : Bool :=
  decide (30 ≤ n) && pop_std_known

/-- A concrete instantiation of the `NormalModel` interface used by the
witness theorems: the clamped linear function `x ↦ max 0 (min 1 (1/2 + x))`
with quantile `q ↦ q - 1/2`. -/
def clampCdf (x : ℝ) : ℝ := max 0 (min 1 (1 / 2 + x))

theorem clampCdf_mono : Monotone clampCdf := by
  intro a b hab
  unfold clampCdf
  have h1 : (1 : ℝ) / 2 + a ≤ 1 / 2 + b := by linarith
  exact max_le_max le_rfl (min_le_min le_rfl h1)

theorem clampCdf_nonneg (x : ℝ) : 0 ≤ clampCdf x := le_max_left _ _

theorem clampCdf_le_one (x : ℝ) : clampCdf x ≤ 1 := by
  unfold clampCdf
  exact max_le (by norm_num) (min_le_left _ _)

theorem clampCdf_neg (x : ℝ) : clampCdf (-x) = 1 - clampCdf x := by
  unfold clampCdf
  rcases le_total (1 / 2 + x) 0 with h | h
  · rw [min_eq_left (show (1 : ℝ) ≤ 1 / 2 + -x by linarith),
      max_eq_right (show (0 : ℝ) ≤ 1 by norm_num),
      min_eq_right (show (1 : ℝ) / 2 + x ≤ 1 by linarith), max_eq_left h]
    norm_num
  · rcases le_total (1 / 2 + x) 1 with h2 | h2
    · rw [min_eq_right (show (1 : ℝ) / 2 + -x ≤ 1 by linarith),
        max_eq_right (show (0 : ℝ) ≤ 1 / 2 + -x by linarith),
        min_eq_right h2, max_eq_right h]
      ring
    · rw [min_eq_right (show (1 : ℝ) / 2 + -x ≤ 1 by linarith),
        max_eq_left (show (1 : ℝ) / 2 + -x ≤ 0 by linarith),
        min_eq_left h2, max_eq_right (show (0 : ℝ) ≤ 1 by norm_num)]
      norm_num

theorem clampCdf_of_unit (q : ℝ) (hq0 : 0 < q) (hq1 : q < 1) :
    clampCdf (q - 1 / 2) = q := by
  unfold clampCdf
  rw [show (1 : ℝ) / 2 + (q - 1 / 2) = q by ring,
    min_eq_right hq1.le, max_eq_right hq0.le]

/-- The concrete `NormalModel` witness instantiation. -/
def linNormal : NormalModel where
  cdf := clampCdf
  ppf := fun q => q - 1 / 2
  cdf_mono := clampCdf_mono
  cdf_nonneg := clampCdf_nonneg
  cdf_le_one := clampCdf_le_one
  cdf_neg := clampCdf_neg
  cdf_ppf := fun q hq0 hq1 => clampCdf_of_unit q hq0 hq1
  ppf_mono := by
    intro q r _ hqr _
    linarith

/-- The concrete `TModel` witness instantiation (degrees of freedom
ignored). -/
def linT : TModel where
  cdf := fun _ => clampCdf
  ppf := fun _ q => q - 1 / 2
  cdf_mono := fun _ => clampCdf_mono
  cdf_nonneg := fun _ => clampCdf_nonneg
  cdf_le_one := fun _ => clampCdf_le_one
  cdf_neg := fun _ => clampCdf_neg
  cdf_ppf := fun _ q hq0 hq1 => clampCdf_of_unit q hq0 hq1
  ppf_mono := by
    intro _ q r _ hqr _
    linarith

/-- Any `NormalModel` has `cdf 0 = 1/2` (from the point symmetry at 0). -/
theorem normalModel_cdf_zero (M : NormalModel) : M.cdf 0 = 1 / 2 := by
  have h := M.cdf_neg 0
  rw [neg_zero] at h
  linarith

/-- Any `TModel` has `cdf df 0 = 1/2` (from the point symmetry at 0). -/
theorem tModel_cdf_zero (T : TModel) (df : ℕ) : T.cdf df 0 = 1 / 2 := by
  have h := T.cdf_neg df 0
  rw [neg_zero] at h
  linarith

/-- The decision rule shared by both hypothesis tests. -/
theorem decision_rule_iff (pv a : ℝ) :
    ((if pv < a then Decision.reject else Decision.failToReject) =
      Decision.reject ↔ pv < a) := by
  by_cases h : pv < a <;> simp [h]

/-- C1 counterexample: at n = 10 with the population standard deviation
known, `hypothesis_test_mean` selects the Normal (Z) path while the
claimed common rule (Normal iff n ≥ 30 and σ known) — which
`calculate_mean_estimation` does follow, taking the Student-t path
here — selects Student-t.  So the two operations do not share the
claimed selection rule. -/
theorem claim_C1_counterexample :
    HypothesisTesting.hypothesis_mean_uses_z 10 true = true ∧
    spec_normal_selection 10 true = false ∧
    Estimation.mean_estimation_uses_t 10 false = true := by
  decide

/-- C1 (amended): `calculate_mean_estimation` selects its reference
distribution by the spec rule — Student-t exactly when not (n ≥ 30 and
the population standard deviation is known) — but `hypothesis_test_mean`
selects the Normal distribution whenever n ≥ 30 **or** the standard
deviation is the population's, so the two operations use different
rules. -/
theorem claim_C1_selection_rules (n : ℕ) (pop_std_known : Bool) :
    Estimation.mean_estimation_uses_t n (!pop_std_known) =
      !(spec_normal_selection n pop_std_known) ∧
    (HypothesisTesting.hypothesis_mean_uses_z n pop_std_known = true ↔
      (30 ≤ n ∨ pop_std_known = true)) := by
  constructor
  · cases pop_std_known
    · simp [Estimation.mean_estimation_uses_t, spec_normal_selection]
    · simp [Estimation.mean_estimation_uses_t, spec_normal_selection]
      rw [← decide_not]
      exact decide_eq_decide.mpr (by omega)
  · simp [HypothesisTesting.hypothesis_mean_uses_z]

/-- C3: `calculate_proportion_estimation` fails with a `ValidationError`
iff n·p < 10 or n·(1−p) < 10; with p = 0.02 and n = 100 it fails; and
when the check passes it returns the margin of error, interval and
optional probability of the Normal path without error. -/
theorem claim_C3_proportion_validation (M : NormalModel) (p cl : ℝ)
    (n : ℕ) (s e : Option ℝ) :
    (failsWithValidation (Estimation.calculate_proportion_estimation M p n cl s e) = true ↔
      ((n : ℝ) * p < 10 ∨ (n : ℝ) * (1 - p) < 10)) ∧
    failsWithValidation (Estimation.calculate_proportion_estimation M 0.02 100 cl s e) = true ∧
    (¬((n : ℝ) * p < 10 ∨ (n : ℝ) * (1 - p) < 10) →
      Estimation.calculate_proportion_estimation M p n cl s e =
        .ok (Estimation.z_distribution M p
          (Real.sqrt ((p * (1 - p)) / (n : ℝ))) cl s e)) := by
  refine ⟨?_, ?_, ?_⟩
  · by_cases h : (n : ℝ) * p < 10 ∨ (n : ℝ) * (1 - p) < 10
    · simp [Estimation.calculate_proportion_estimation,
        Estimation.validate_estimation_inputs, h, failsWithValidation,
        StatError.isValidationKind]
    · simp [Estimation.calculate_proportion_estimation,
        Estimation.validate_estimation_inputs, h, failsWithValidation]
  · norm_num [Estimation.calculate_proportion_estimation,
      Estimation.validate_estimation_inputs, failsWithValidation,
      StatError.isValidationKind]
  · intro h
    simp [Estimation.calculate_proportion_estimation,
      Estimation.validate_estimation_inputs, h]

/-- C3 witness: a passing instance (p = 0.5, n = 100). -/
theorem claim_C3_proportion_validation_witness :
    ¬(((100 : ℕ) : ℝ) * 0.5 < 10 ∨ ((100 : ℕ) : ℝ) * (1 - 0.5) < 10) ∧
    Estimation.calculate_proportion_estimation linNormal 0.5 100 0.95 none none =
      .ok (Estimation.z_distribution linNormal 0.5
        (Real.sqrt ((0.5 * (1 - 0.5)) / ((100 : ℕ) : ℝ))) 0.95 none none) := by
  have h : ¬(((100 : ℕ) : ℝ) * 0.5 < 10 ∨ ((100 : ℕ) : ℝ) * (1 - 0.5) < 10) := by
    norm_num
  exact ⟨h, (claim_C3_proportion_validation linNormal 0.5 0.95 100 none none).2.2 h⟩

/-- C5: for both `hypothesis_test_mean` and `hypothesis_test_proportion`,
whenever the test returns (statistic, p-value, decision), the decision is
reject exactly when the p-value is strictly below α (at p-value = α the
decision is fail-to-reject). -/
theorem claim_C5_decision (M : NormalModel) (T : TModel)
    (x μ σ p p0 a : ℝ) (n m : ℕ) (tail tail2 : String) (pop : Bool) :
    (∀ stat pv d,
      HypothesisTesting.hypothesis_test_mean M T x μ σ n a tail pop = .ok (stat, pv, d) →
      (d = Decision.reject ↔ pv < a)) ∧
    (∀ stat pv d,
      HypothesisTesting.hypothesis_test_proportion M T p p0 m a tail2 = .ok (stat, pv, d) →
      (d = Decision.reject ↔ pv < a)) := by
  constructor
  · intro stat pv d h
    simp only [HypothesisTesting.hypothesis_test_mean] at h
    split at h
    · simp at h
    · simp only [Except.ok.injEq, Prod.mk.injEq] at h
      obtain ⟨h1, h2, h3⟩ := h
      subst h2
      subst h3
      exact decision_rule_iff _ _
  · intro stat pv d h
    simp only [HypothesisTesting.hypothesis_test_proportion] at h
    split at h
    · simp at h
    · split at h
      · simp at h
      · simp only [Except.ok.injEq, Prod.mk.injEq] at h
        obtain ⟨h1, h2, h3⟩ := h
        subst h2
        subst h3
        exact decision_rule_iff _ _

/-- The only error `calculate_p_value` can raise is the invalid-tail-type
one. -/
theorem calculate_p_value_error_kind (M : NormalModel) (T : TModel)
    (z : ℝ) (tail : String) (df : Option ℕ) (err : StatError)
    (h : HypothesisTesting.calculate_p_value M T z tail df = .error err) :
    err = .invalidArgument "Invalid tail type. Choose two, left, or right." := by
  simp only [HypothesisTesting.calculate_p_value] at h
  split at h
  · cases df <;> simp_all
  · split at h
    · cases df <;> simp_all
    · split at h
      · cases df <;> simp_all
      · simp_all

/-- C2: the proportion hypothesis test applies the 10-successes/10-failures
check to the hypothesized proportion p₀, fails with a `ValidationError`
exactly when n·p₀ < 10 or n·(1−p₀) < 10, and otherwise computes its
standard error from the hypothesized proportion. -/
theorem claim_C2_proportion_test_validation (M : NormalModel) (T : TModel)
    (p p0 a : ℝ) (n : ℕ) (tail : String) :
    (failsWithValidation (HypothesisTesting.hypothesis_test_proportion M T p p0 n a tail) = true ↔
      ((n : ℝ) * p0 < 10 ∨ (n : ℝ) * (1 - p0) < 10)) ∧
    (¬((n : ℝ) * p0 < 10 ∨ (n : ℝ) * (1 - p0) < 10) →
      HypothesisTesting.hypothesis_test_proportion M T p p0 n a tail =
        match HypothesisTesting.calculate_p_value M T
            (HypothesisTesting.calculate_z_score p p0
              (HypothesisTesting.calculate_standard_error_proportion p0 n)) tail none with
        | .error e => .error e
        | .ok pv => .ok (HypothesisTesting.calculate_z_score p p0
            (HypothesisTesting.calculate_standard_error_proportion p0 n), pv,
            if pv < a then Decision.reject else Decision.failToReject)) := by
  have hmain : ¬((n : ℝ) * p0 < 10 ∨ (n : ℝ) * (1 - p0) < 10) →
      HypothesisTesting.hypothesis_test_proportion M T p p0 n a tail =
        match HypothesisTesting.calculate_p_value M T
            (HypothesisTesting.calculate_z_score p p0
              (HypothesisTesting.calculate_standard_error_proportion p0 n)) tail none with
        | .error e => .error e
        | .ok pv => .ok (HypothesisTesting.calculate_z_score p p0
            (HypothesisTesting.calculate_standard_error_proportion p0 n), pv,
            if pv < a then Decision.reject else Decision.failToReject) := by
    intro hc
    simp [HypothesisTesting.hypothesis_test_proportion,
      HypothesisTesting.validate_proportion_inputs, hc]
  refine ⟨?_, hmain⟩
  by_cases hc : (n : ℝ) * p0 < 10 ∨ (n : ℝ) * (1 - p0) < 10
  · simp [HypothesisTesting.hypothesis_test_proportion,
      HypothesisTesting.validate_proportion_inputs, hc, failsWithValidation,
      StatError.isValidationKind]
  · rw [hmain hc]
    cases hpv : HypothesisTesting.calculate_p_value M T
        (HypothesisTesting.calculate_z_score p p0
          (HypothesisTesting.calculate_standard_error_proportion p0 n)) tail none with
    | error err =>
        have hk := calculate_p_value_error_kind M T _ tail none err hpv
        subst hk
        simp [failsWithValidation, StatError.isValidationKind, hc]
    | ok pval =>
        simp [failsWithValidation, hc]

/-- C2 witness: the worked proportion scenario passes validation and the
standard error is built from the hypothesized proportion 0.5. -/
theorem claim_C2_proportion_test_validation_witness :
    ¬(((1000 : ℕ) : ℝ) * 0.5 < 10 ∨ ((1000 : ℕ) : ℝ) * (1 - 0.5) < 10) ∧
    HypothesisTesting.hypothesis_test_proportion linNormal linT 0.44 0.5 1000 0.05 "two" =
      match HypothesisTesting.calculate_p_value linNormal linT
          (HypothesisTesting.calculate_z_score 0.44 0.5
            (HypothesisTesting.calculate_standard_error_proportion 0.5 1000)) "two" none with
      | .error e => .error e
      | .ok pv => .ok (HypothesisTesting.calculate_z_score 0.44 0.5
          (HypothesisTesting.calculate_standard_error_proportion 0.5 1000), pv,
          if pv < 0.05 then Decision.reject else Decision.failToReject) := by
  have h : ¬(((1000 : ℕ) : ℝ) * 0.5 < 10 ∨ ((1000 : ℕ) : ℝ) * (1 - 0.5) < 10) := by
    push_cast
    norm_num
  exact ⟨h, (claim_C2_proportion_test_validation linNormal linT 0.44 0.5 0.05 1000 "two").2 h⟩

/-- C6: for every confidence level in (0,1) the confidence interval
returned by mean estimation (either path) and by proportion estimation is
symmetric about the point estimate, each half-width equal to the margin
of error. -/
theorem claim_C6_interval_symmetry (M : NormalModel) (T : TModel)
    (mean std p cl : ℝ) (n m : ℕ) (flag : Bool) (s e : Option ℝ)
    (hcl0 : 0 < cl) (hcl1 : cl < 1) :
    ((Estimation.calculate_mean_estimation M T mean n std flag cl s e).2.1.2 - mean =
      mean - (Estimation.calculate_mean_estimation M T mean n std flag cl s e).2.1.1) ∧
    ((Estimation.calculate_mean_estimation M T mean n std flag cl s e).2.1.2 - mean =
      (Estimation.calculate_mean_estimation M T mean n std flag cl s e).1) ∧
    (∀ MoE lo hi pr,
      Estimation.calculate_proportion_estimation M p m cl s e = .ok (MoE, (lo, hi), pr) →
      hi - p = p - lo ∧ hi - p = MoE) := by
  refine ⟨?_, ?_, ?_⟩
  · by_cases hb : Estimation.mean_estimation_uses_t n flag = true <;>
      simp [Estimation.calculate_mean_estimation, Estimation.t_distribution,
        Estimation.z_distribution, hb]
  · by_cases hb : Estimation.mean_estimation_uses_t n flag = true <;>
      simp [Estimation.calculate_mean_estimation, Estimation.t_distribution,
        Estimation.z_distribution, hb]
  · intro MoE lo hi pr h
    simp only [Estimation.calculate_proportion_estimation] at h
    split at h
    · simp at h
    · simp only [Estimation.z_distribution, Except.ok.injEq, Prod.mk.injEq] at h
      obtain ⟨h1, ⟨h2, h3⟩, h4⟩ := h
      subst h1
      subst h2
      subst h3
      constructor <;> ring

/-- C7: with a two-sided test at α = 0.05 and no true effect
(meanNull = meanAlt), the error/power analysis returns Type I error
α = 0.05, Type II error β = 1 − α = 0.95, and power = α = 0.05. -/
theorem claim_C7_power_no_effect (M : NormalModel) (mean_null std : ℝ)
    (n : ℕ) (hstd : 0 < std) (hn : 0 < n) :
    HypothesisError.calculate_errors_power M mean_null mean_null std n 0.05 "two" =
      .ok (0.05, 0.95, 0.05) := by
  have hnR : (0 : ℝ) < (n : ℝ) := by exact_mod_cast hn
  have hSE : (0 : ℝ) < std / Real.sqrt (n : ℝ) :=
    div_pos hstd (Real.sqrt_pos.mpr hnR)
  simp only [HypothesisError.calculate_errors_power, norm_cdf_loc_scale]
  rw [if_true]
  have h1 : (mean_null + M.ppf (1 - 0.05 / 2) * (std / Real.sqrt (n : ℝ)) - mean_null) /
      (std / Real.sqrt (n : ℝ)) = M.ppf (1 - 0.05 / 2) := by
    rw [div_eq_iff hSE.ne']
    ring
  have h2 : (mean_null - M.ppf (1 - 0.05 / 2) * (std / Real.sqrt (n : ℝ)) - mean_null) /
      (std / Real.sqrt (n : ℝ)) = -(M.ppf (1 - 0.05 / 2)) := by
    rw [div_eq_iff hSE.ne']
    ring
  rw [h1, h2, M.cdf_neg, M.cdf_ppf (1 - 0.05 / 2) (by norm_num) (by norm_num)]
  norm_num

/-- C7 witness: a concrete no-effect instance. -/
theorem claim_C7_power_no_effect_witness :
    ((0 : ℝ) < 1 ∧ 0 < 4) ∧
    HypothesisError.calculate_errors_power linNormal 0 0 1 4 0.05 "two" =
      .ok (0.05, 0.95, 0.05) :=
  ⟨⟨by norm_num, by norm_num⟩,
    claim_C7_power_no_effect linNormal 0 1 4 (by norm_num) (by norm_num)⟩

/-- C8: holding the standard error (equivalently n and the dispersion)
fixed, the margin of error is monotonically non-decreasing in the
confidence level — on the Normal path, on the Student-t path, and through
`calculate_mean_estimation`. -/
theorem claim_C8_moe_monotone (M : NormalModel) (T : TModel)
    (mean SE std : ℝ) (n : ℕ) (flag : Bool) (s e : Option ℝ) (c1 c2 : ℝ)
    (hSE : 0 ≤ SE) (hstd : 0 ≤ std) (h1 : 0 < c1) (h12 : c1 ≤ c2) (h2 : c2 < 1) :
    (Estimation.z_distribution M mean SE c1 s e).1 ≤
      (Estimation.z_distribution M mean SE c2 s e).1 ∧
    (Estimation.t_distribution T mean SE c1 n s e).1 ≤
      (Estimation.t_distribution T mean SE c2 n s e).1 ∧
    (Estimation.calculate_mean_estimation M T mean n std flag c1 s e).1 ≤
      (Estimation.calculate_mean_estimation M T mean n std flag c2 s e).1 := by
  have hq1 : (0 : ℝ) < 1 - (1 - c1) / 2 := by linarith
  have hq12 : 1 - (1 - c1) / 2 ≤ 1 - (1 - c2) / 2 := by linarith
  have hq2 : 1 - (1 - c2) / 2 < 1 := by linarith
  have hz : M.ppf (1 - (1 - c1) / 2) ≤ M.ppf (1 - (1 - c2) / 2) :=
    M.ppf_mono _ _ hq1 hq12 hq2
  have ht : ∀ df, T.ppf df (1 - (1 - c1) / 2) ≤ T.ppf df (1 - (1 - c2) / 2) :=
    fun df => T.ppf_mono df _ _ hq1 hq12 hq2
  have hse2 : (0 : ℝ) ≤ std / Real.sqrt (n : ℝ) :=
    div_nonneg hstd (Real.sqrt_nonneg _)
  refine ⟨?_, ?_, ?_⟩
  · simp only [Estimation.z_distribution]
    exact mul_le_mul_of_nonneg_right hz hSE
  · simp only [Estimation.t_distribution]
    exact mul_le_mul_of_nonneg_right (ht _) hSE
  · by_cases hb : Estimation.mean_estimation_uses_t n flag = true
    · simp only [Estimation.calculate_mean_estimation, hb, if_true,
        Estimation.t_distribution]
      exact mul_le_mul_of_nonneg_right (ht _) hse2
    · simp only [Estimation.calculate_mean_estimation, hb,
        Bool.false_eq_true, if_false, Estimation.z_distribution]
      exact mul_le_mul_of_nonneg_right hz hse2

/-- C8 witness: confidence levels 0.9 ≤ 0.95 at a concrete instance. -/
theorem claim_C8_moe_monotone_witness :
    ((0 : ℝ) ≤ 1 ∧ (0 : ℝ) ≤ 1 ∧ (0 : ℝ) < 0.9 ∧ (0.9 : ℝ) ≤ 0.95 ∧ (0.95 : ℝ) < 1) ∧
    ((Estimation.z_distribution linNormal 0 1 0.9 none none).1 ≤
      (Estimation.z_distribution linNormal 0 1 0.95 none none).1 ∧
    (Estimation.t_distribution linT 0 1 0.9 25 none none).1 ≤
      (Estimation.t_distribution linT 0 1 0.95 25 none none).1 ∧
    (Estimation.calculate_mean_estimation linNormal linT 0 25 1 true 0.9 none none).1 ≤
      (Estimation.calculate_mean_estimation linNormal linT 0 25 1 true 0.95 none none).1) :=
  ⟨⟨by norm_num, by norm_num, by norm_num, by norm_num, by norm_num⟩,
    claim_C8_moe_monotone linNormal linT 0 1 1 25 true none none 0.9 0.95
      (by norm_num) (by norm_num) (by norm_num) (by norm_num) (by norm_num)⟩

/-- C4: in the worked scenario (sample proportion 0.44, hypothesized
proportion 0.5, n = 1000, α = 0.05, two-sided) the proportion test
computes z = (0.44 − 0.5)/√(0.5·0.5/1000), which is within 0.01 of
−3.79, a two-sided Normal p-value 2·(1 − Φ(|z|)) below 0.001, and the
decision is reject.  The only numeric fact needed about the Normal CDF
is Φ(3.79) ≥ 0.9996 (true: Φ(3.79) ≈ 0.99992). -/
theorem claim_C4_worked_proportion_test (M : NormalModel) (T : TModel)
    (hcdf : (0.9996 : ℝ) ≤ M.cdf 3.79) :
    ∃ z pv,
      HypothesisTesting.hypothesis_test_proportion M T 0.44 0.5 1000 0.05 "two" =
        .ok (z, pv, Decision.reject) ∧
      |z + 3.79| < 0.01 ∧ pv < 0.001 := by
  set se := HypothesisTesting.calculate_standard_error_proportion 0.5 1000 with hsedef
  have hseq : se ^ 2 = 0.00025 := by
    rw [hsedef]
    simp only [HypothesisTesting.calculate_standard_error_proportion]
    rw [Real.sq_sqrt (by positivity)]
    push_cast
    norm_num
  have hsepos : 0 < se := by
    rw [hsedef]
    simp only [HypothesisTesting.calculate_standard_error_proportion]
    apply Real.sqrt_pos.mpr
    push_cast
    norm_num
  set z := HypothesisTesting.calculate_z_score 0.44 0.5 se with hzdef
  have hzneg : z = -(0.06 / se) := by
    rw [hzdef]
    simp only [HypothesisTesting.calculate_z_score]
    rw [show (0.44 - 0.5 : ℝ) = -0.06 by norm_num, neg_div]
  have habs : |z| = 0.06 / se := by
    rw [hzneg, abs_neg, abs_of_pos (div_pos (by norm_num) hsepos)]
  have hlow : (3.79 : ℝ) ≤ 0.06 / se := by
    rw [le_div_iff₀ hsepos]
    nlinarith [hseq, hsepos, mul_pos hsepos hsepos]
  have hhigh : (0.06 : ℝ) / se < 3.80 := by
    rw [div_lt_iff₀ hsepos]
    nlinarith [hseq, hsepos, mul_pos hsepos hsepos]
  have hcdfz : (0.9996 : ℝ) ≤ M.cdf |z| := by
    refine le_trans hcdf (M.cdf_mono ?_)
    rw [habs]
    exact hlow
  have hcdf1 := M.cdf_le_one |z|
  have hpv : 2 * (1 - M.cdf |z|) < 0.001 := by linarith
  have hpv05 : 2 * (1 - M.cdf |z|) < 0.05 := by linarith
  have hcp : HypothesisTesting.calculate_p_value M T z "two" none =
      .ok (2 * (1 - M.cdf |z|)) := by
    simp only [HypothesisTesting.calculate_p_value]
    rw [if_true]
  refine ⟨z, 2 * (1 - M.cdf |z|), ?_, ?_, hpv⟩
  · have hval : ¬(((1000 : ℕ) : ℝ) * 0.5 < 10 ∨ ((1000 : ℕ) : ℝ) * (1 - 0.5) < 10) := by
      push_cast
      norm_num
    simp only [HypothesisTesting.hypothesis_test_proportion,
      HypothesisTesting.validate_proportion_inputs]
    rw [if_neg hval]
    rw [if_neg (show ¬(((true : Bool), "Inputs are valid.").1 = false) by simp)]
    rw [← hsedef, ← hzdef]
    simp only [hcp]
    rw [if_pos hpv05]
  · rw [hzneg, show -(0.06 / se) + 3.79 = 3.79 - 0.06 / se by ring, abs_lt]
    constructor <;> linarith

/-- C4 witness: the interface hypothesis Φ(3.79) ≥ 0.9996 holds for the
concrete model (where Φ(3.79) = 1). -/
theorem claim_C4_worked_proportion_test_witness :
    (0.9996 : ℝ) ≤ linNormal.cdf 3.79 ∧
    (∃ z pv,
      HypothesisTesting.hypothesis_test_proportion linNormal linT 0.44 0.5 1000 0.05 "two" =
        .ok (z, pv, Decision.reject) ∧
      |z + 3.79| < 0.01 ∧ pv < 0.001) := by
  have h : (0.9996 : ℝ) ≤ linNormal.cdf 3.79 := by
    show (0.9996 : ℝ) ≤ clampCdf 3.79
    unfold clampCdf
    rw [min_eq_left (by norm_num), max_eq_right (by norm_num)]
    norm_num
  exact ⟨h, claim_C4_worked_proportion_test linNormal linT h⟩

/-- C9 counterexample: the error/power analysis does **not** reject a
non-positive sample size before returning — at n = 0 it completes and
returns a result (in Python, `np.sqrt`/division produce inf/NaN with
only a warning and the function returns the NaN-laden triple; no error
of any kind is raised). -/
theorem claim_C9_counterexample :
    exceptFails (HypothesisError.calculate_errors_power linNormal 15 15.5 0.5 0 0.05 "two") =
      false := by
  simp only [HypothesisError.calculate_errors_power, exceptFails]
  rw [if_true]

/-- C9 (amended): `calculate_p_value` rejects an unrecognized tail mode
with the invalid-tail `ValueError`, and `calculate_errors_power` fails on
an unrecognized tail mode (in Python via `UnboundLocalError`, since no
branch assigns `beta`); but non-positive sample sizes are not rejected:
`calculate_errors_power` with n = 0 returns a result instead of failing,
and no `n ≤ 0` or `p ∉ [0,1]` validation exists in these functions. -/
theorem claim_C9_fail_fast (M : NormalModel) (T : TModel)
    (z a mean_null mean_alt std : ℝ) (df : Option ℕ) (n : ℕ) (tails : String)
    (hbad : tails ≠ "two" ∧ tails ≠ "left" ∧ tails ≠ "right") :
    HypothesisTesting.calculate_p_value M T z tails df =
      .error (.invalidArgument "Invalid tail type. Choose two, left, or right.") ∧
    HypothesisError.calculate_errors_power M mean_null mean_alt std n a tails =
      .error .unboundLocalError ∧
    exceptFails (HypothesisError.calculate_errors_power M mean_null mean_alt std 0 a "two") =
      false := by
  obtain ⟨h1, h2, h3⟩ := hbad
  refine ⟨?_, ?_, ?_⟩
  · simp [HypothesisTesting.calculate_p_value, h1, h2, h3]
  · simp [HypothesisError.calculate_errors_power, h1, h2, h3]
  · simp only [HypothesisError.calculate_errors_power, exceptFails]
    rw [if_true]

/-- C9 witness: the unrecognized tail mode "middle". -/
theorem claim_C9_fail_fast_witness :
    (("middle" ≠ "two" ∧ "middle" ≠ "left" ∧ "middle" ≠ "right") : Prop) ∧
    (HypothesisTesting.calculate_p_value linNormal linT 1 "middle" none =
      .error (.invalidArgument "Invalid tail type. Choose two, left, or right.") ∧
    HypothesisError.calculate_errors_power linNormal 15 15.5 0.5 10 0.05 "middle" =
      .error .unboundLocalError ∧
    exceptFails (HypothesisError.calculate_errors_power linNormal 15 15.5 0.5 0 0.05 "two") =
      false) := by
  have hb : ("middle" ≠ "two" ∧ "middle" ≠ "left" ∧ "middle" ≠ "right" : Prop) := by
    refine ⟨?_, ?_, ?_⟩ <;> decide
  exact ⟨hb, claim_C9_fail_fast linNormal linT 1 0.05 15 15.5 0.5 none 10 "middle" hb⟩

/-- C10: for every test statistic, every recognized tail mode and every
degrees-of-freedom setting, a p-value returned by `calculate_p_value`
lies in [0, 1]; the two-sided value 2·(1 − CDF(|stat|)) is at most 1
because CDF(|stat|) ≥ CDF(0) = 1/2. -/
theorem claim_C10_p_value_range (M : NormalModel) (T : TModel)
    (z : ℝ) (tails : String) (df : Option ℕ) (pv : ℝ)
    (h : HypothesisTesting.calculate_p_value M T z tails df = .ok pv) :
    0 ≤ pv ∧ pv ≤ 1 := by
  simp only [HypothesisTesting.calculate_p_value] at h
  split at h
  · cases df with
    | none =>
        simp only [Except.ok.injEq] at h
        subst h
        have h1 := M.cdf_le_one |z|
        have h2 : (1 : ℝ) / 2 ≤ M.cdf |z| := by
          have h3 := M.cdf_mono (abs_nonneg z)
          rwa [normalModel_cdf_zero M] at h3
        constructor <;> linarith
    | some d =>
        simp only [Except.ok.injEq] at h
        subst h
        have h1 := T.cdf_le_one d |z|
        have h2 : (1 : ℝ) / 2 ≤ T.cdf d |z| := by
          have h3 := T.cdf_mono d (abs_nonneg z)
          rwa [tModel_cdf_zero T d] at h3
        constructor <;> linarith
  · split at h
    · cases df with
      | none =>
          simp only [Except.ok.injEq] at h
          subst h
          exact ⟨M.cdf_nonneg z, M.cdf_le_one z⟩
      | some d =>
          simp only [Except.ok.injEq] at h
          subst h
          exact ⟨T.cdf_nonneg d z, T.cdf_le_one d z⟩
    · split at h
      · cases df with
        | none =>
            simp only [Except.ok.injEq] at h
            subst h
            have h1 := M.cdf_nonneg z
            have h2 := M.cdf_le_one z
            constructor <;> linarith
        | some d =>
            simp only [Except.ok.injEq] at h
            subst h
            have h1 := T.cdf_nonneg d z
            have h2 := T.cdf_le_one d z
            constructor <;> linarith
      · simp at h

/-- C10 witness: a left-tailed standard-Normal p-value at z = 0.2. -/
theorem claim_C10_p_value_range_witness :
    HypothesisTesting.calculate_p_value linNormal linT 0.2 "left" none = .ok 0.7 ∧
    ((0 : ℝ) ≤ 0.7 ∧ (0.7 : ℝ) ≤ 1) := by
  have h : HypothesisTesting.calculate_p_value linNormal linT 0.2 "left" none = .ok 0.7 := by
    simp only [HypothesisTesting.calculate_p_value]
    rw [if_neg (by decide), if_true]
    show Except.ok (clampCdf 0.2) = _
    unfold clampCdf
    rw [min_eq_right (by norm_num), max_eq_right (by norm_num)]
    norm_num
  exact ⟨h, claim_C10_p_value_range linNormal linT 0.2 "left" none 0.7 h⟩

/-- C5 witness: concrete mean and proportion tests whose p-values
exceed α, with the fail-to-reject decision. -/
theorem claim_C5_decision_witness :
    HypothesisTesting.hypothesis_test_mean linNormal linT 0.3 0 5 25 0.05 "left" true =
      .ok (0.3, 0.8, Decision.failToReject) ∧
    HypothesisTesting.hypothesis_test_proportion linNormal linT 0.52 0.5 100 0.05 "left" =
      .ok (0.4, 0.9, Decision.failToReject) ∧
    (Decision.failToReject = Decision.reject ↔ (0.8 : ℝ) < 0.05) ∧
    (Decision.failToReject = Decision.reject ↔ (0.9 : ℝ) < 0.05) := by
  have hse : HypothesisTesting.calculate_standard_error_mean 5 25 = 1 := by
    simp only [HypothesisTesting.calculate_standard_error_mean]
    rw [show ((25 : ℕ) : ℝ) = (5 : ℝ) ^ 2 by push_cast; norm_num,
      Real.sqrt_sq (by norm_num)]
    norm_num
  have hz : HypothesisTesting.calculate_z_score 0.3 0
      (HypothesisTesting.calculate_standard_error_mean 5 25) = 0.3 := by
    rw [HypothesisTesting.calculate_z_score, hse]
    norm_num
  have hcp : HypothesisTesting.calculate_p_value linNormal linT
      (HypothesisTesting.calculate_z_score 0.3 0
        (HypothesisTesting.calculate_standard_error_mean 5 25)) "left" none = .ok 0.8 := by
    rw [hz]
    simp only [HypothesisTesting.calculate_p_value]
    rw [if_neg (by decide), if_true]
    show Except.ok (clampCdf 0.3) = _
    unfold clampCdf
    rw [min_eq_right (by norm_num), max_eq_right (by norm_num)]
    norm_num
  have h1 : HypothesisTesting.hypothesis_test_mean linNormal linT 0.3 0 5 25 0.05 "left" true =
      .ok (0.3, 0.8, Decision.failToReject) := by
    simp only [HypothesisTesting.hypothesis_test_mean]
    rw [if_pos (show HypothesisTesting.hypothesis_mean_uses_z 25 true = true by decide)]
    simp only [hcp]
    rw [hz, if_neg (by norm_num : ¬((0.8 : ℝ) < 0.05))]
  have hsep : HypothesisTesting.calculate_standard_error_proportion 0.5 100 = 0.05 := by
    simp only [HypothesisTesting.calculate_standard_error_proportion]
    rw [show (0.5 * (1 - 0.5) / ((100 : ℕ) : ℝ)) = (0.05 : ℝ) ^ 2 by push_cast; norm_num]
    exact Real.sqrt_sq (by norm_num)
  have hz2 : HypothesisTesting.calculate_z_score 0.52 0.5
      (HypothesisTesting.calculate_standard_error_proportion 0.5 100) = 0.4 := by
    rw [HypothesisTesting.calculate_z_score, hsep]
    norm_num
  have hcp2 : HypothesisTesting.calculate_p_value linNormal linT
      (HypothesisTesting.calculate_z_score 0.52 0.5
        (HypothesisTesting.calculate_standard_error_proportion 0.5 100)) "left" none =
      .ok 0.9 := by
    rw [hz2]
    simp only [HypothesisTesting.calculate_p_value]
    rw [if_neg (by decide), if_true]
    show Except.ok (clampCdf 0.4) = _
    unfold clampCdf
    rw [min_eq_right (by norm_num), max_eq_right (by norm_num)]
    norm_num
  have h2 : HypothesisTesting.hypothesis_test_proportion linNormal linT 0.52 0.5 100 0.05 "left" =
      .ok (0.4, 0.9, Decision.failToReject) := by
    have hval : ¬(((100 : ℕ) : ℝ) * 0.5 < 10 ∨ ((100 : ℕ) : ℝ) * (1 - 0.5) < 10) := by
      push_cast
      norm_num
    simp only [HypothesisTesting.hypothesis_test_proportion,
      HypothesisTesting.validate_proportion_inputs]
    rw [if_neg hval]
    rw [if_neg (show ¬(((true : Bool), "Inputs are valid.").1 = false) by simp)]
    simp only [hcp2]
    rw [hz2, if_neg (by norm_num : ¬((0.9 : ℝ) < 0.05))]
  refine ⟨h1, h2, ?_, ?_⟩
  · exact (claim_C5_decision linNormal linT 0.3 0 5 0.52 0.5 0.05 25 100 "left" "left" true).1
      0.3 0.8 Decision.failToReject h1
  · exact (claim_C5_decision linNormal linT 0.3 0 5 0.52 0.5 0.05 25 100 "left" "left" true).2
      0.4 0.9 Decision.failToReject h2

/-- C6 witness: confidence level 0.9, the t-path of mean estimation and a
concrete proportion estimation whose interval (0.4775, 0.5225) is
symmetric about 0.5 with half-width 0.0225. -/
theorem claim_C6_interval_symmetry_witness :
    ((0 : ℝ) < 0.9 ∧ (0.9 : ℝ) < 1) ∧
    ((Estimation.calculate_mean_estimation linNormal linT 10 25 5 true 0.9 none none).2.1.2 - 10 =
      10 - (Estimation.calculate_mean_estimation linNormal linT 10 25 5 true 0.9 none none).2.1.1) ∧
    ((Estimation.calculate_mean_estimation linNormal linT 10 25 5 true 0.9 none none).2.1.2 - 10 =
      (Estimation.calculate_mean_estimation linNormal linT 10 25 5 true 0.9 none none).1) ∧
    ((0.5225 : ℝ) - 0.5 = 0.5 - 0.4775 ∧ (0.5225 : ℝ) - 0.5 = 0.0225) := by
  have hmain := claim_C6_interval_symmetry linNormal linT 10 5 0.5 0.9 25 100 true none none
    (by norm_num) (by norm_num)
  have hp : Estimation.calculate_proportion_estimation linNormal 0.5 100 0.9 none none =
      .ok (0.0225, (0.4775, 0.5225), none) := by
    have hval : ¬(((100 : ℕ) : ℝ) * 0.5 < 10 ∨ ((100 : ℕ) : ℝ) * (1 - 0.5) < 10) := by
      push_cast
      norm_num
    have hsq : Real.sqrt (0.5 * (1 - 0.5) / ((100 : ℕ) : ℝ)) = 0.05 := by
      rw [show (0.5 * (1 - 0.5) / ((100 : ℕ) : ℝ)) = (0.05 : ℝ) ^ 2 by push_cast; norm_num]
      exact Real.sqrt_sq (by norm_num)
    simp only [Estimation.calculate_proportion_estimation,
      Estimation.validate_estimation_inputs]
    rw [if_neg hval]
    rw [if_neg (show ¬(((true : Bool), "Inputs are valid.").1 = false) by simp)]
    rw [hsq]
    simp only [Estimation.z_distribution, linNormal]
    norm_num
  refine ⟨⟨by norm_num, by norm_num⟩, hmain.1, hmain.2.1, ?_⟩
  exact hmain.2.2 0.0225 0.4775 0.5225 none hp

end
